import Mathlib

/-!
Verification of the AidGen relay (Cloudflare Worker `src/worker/index.js` and
Cloudflare Pages Function `src/unnamed/part_000`) against its specification.

The relay receives a JSON body of coffee attributes, builds a prompt, calls the
OpenAI chat-completions API, and returns the model's HTML as JSON. We embed the
JavaScript handlers shallowly: JSON values are an inductive type, the upstream
`fetch` is an oracle parameter, and each handler returns the response it would
produce together with the list of outbound upstream calls it made.
-/

/- A JSON value, as produced by `JSON.parse`. JavaScript objects obtained from
`JSON.parse` have unique keys (a duplicated key keeps the last occurrence
during parsing), so `JsonObj` field lists represent already-parsed objects.
Numbers are modelled as rationals; JSON numerals denote no NaN or infinity.
`JsonArr` and `JsonObj` are bespoke list types so that the recursions below are
structural and hence computable by the kernel. -/
mutual
/-- A JSON value. -/
inductive Json where
  | null : Json
  | bool : Bool → Json
  | num : ℚ → Json
  | str : String → Json
  | arr : JsonArr → Json
  | obj : JsonObj → Json

/-- A list of JSON array elements. -/
inductive JsonArr where
  | nil : JsonArr
  | cons : Json → JsonArr → JsonArr

/-- A list of JSON object members. -/
inductive JsonObj where
  | nil : JsonObj
  | cons : String → Json → JsonObj → JsonObj
end

/-- The members of a JSON object, in insertion order. -/
def JsonObj.fields : JsonObj → List (String × Json)
  | .nil => []
  | .cons k v rest => (k, v) :: rest.fields

/-- Build a JSON object from a list of members. -/
def JsonObj.ofList : List (String × Json) → JsonObj
  | [] => .nil
  | (k, v) :: rest => .cons k v (JsonObj.ofList rest)

/-- The elements of a JSON array, in order. -/
def JsonArr.toList : JsonArr → List Json
  | .nil => []
  | .cons v rest => v :: rest.toList

/-- Build a JSON array from a list of elements. -/
def JsonArr.ofList : List Json → JsonArr
  | [] => .nil
  | v :: rest => .cons v (JsonArr.ofList rest)

/-- Notation-free shorthand for a JSON object literal. -/
def jobj (fs : List (String × Json)) : Json := .obj (JsonObj.ofList fs)

/-- Notation-free shorthand for a JSON array literal. -/
def jarr (xs : List Json) : Json := .arr (JsonArr.ofList xs)

/-- Property lookup in an object's member list (`o[k]` on a parsed object):
`none` models the JavaScript value `undefined`. Parsed objects have unique
keys, so taking the first match is exact. -/
def lookupField (fields : List (String × Json)) (k : String) : Option Json :=
  (fields.find? (fun p => p.1 == k)).map (·.2)

/-- JavaScript truthiness of a JSON value: `null`, `false`, `0` and `""` are
falsy; every array and object is truthy. -/
def truthy : Json → Bool
  | .null => false
  | .bool b => b
  | .num q => q ≠ 0
  | .str s => s ≠ ""
  | .arr _ => true
  | .obj _ => true

/-- Decimal digits of the fractional part `r / d`, as JavaScript number
formatting prints them; `fuel` bounds the expansion (every numeral appearing in
the program terminates well within it). -/
def fracDigits : Nat → Nat → Nat → String
  | 0, _, _ => ""
  | _, 0, _ => ""
  | fuel + 1, r, d =>
    let r10 := r * 10
    toString (r10 / d) ++ fracDigits fuel (r10 % d) d

/-- JavaScript string conversion of a number (`String(q)`), for the finite
decimals the program handles. -/
def ratToString (q : ℚ) : String :=
  let sign := if q < 0 then "-" else ""
  let n := q.num.natAbs
  let d := q.den
  if n % d = 0 then sign ++ toString (n / d)
  else sign ++ toString (n / d) ++ "." ++ fracDigits 40 (n % d) d

/- JavaScript string conversion `String(v)` (equivalently `v.toString()` for
the values reachable here): `null` prints as `"null"`, booleans as
`"true"`/`"false"`, arrays join their element strings with commas (a `null`
element prints as the empty string), and plain objects print as
`"[object Object]"`. -/
mutual
/-- JavaScript string conversion of one JSON value. -/
def jsToString (v : Json) : String :=
  match v with
  | .null => "null"
  | .bool b => cond b "true" "false"
  | .num q => ratToString q
  | .str s => s
  | .obj _ => "[object Object]"
  | .arr xs => jsArrToString xs
termination_by structural v

/-- Comma-joined element strings of an array, as `Array.prototype.toString`
produces them. -/
def jsArrToString (l : JsonArr) : String :=
  match l with
  | .nil => ""
  | .cons .null .nil => ""
  | .cons x .nil => jsToString x
  | .cons .null (.cons y rest) => "," ++ jsArrToString (.cons y rest)
  | .cons x (.cons y rest) => jsToString x ++ "," ++ jsArrToString (.cons y rest)
termination_by structural l
end

/-- Lowercase hexadecimal digit, as `JSON.stringify` prints in escapes. -/
def hexDigit (n : Nat) : String :=
  String.singleton (if n < 10 then Char.ofNat (48 + n) else Char.ofNat (87 + n))

/-- Escaping of one character inside a `JSON.stringify` string literal. -/
def escapeChar (c : Char) : String :=
  if c = Char.ofNat 34 then "\\\""
  else if c = '\\' then "\\\\"
  else if c = '\n' then "\\n"
  else if c = '\r' then "\\r"
  else if c = '\t' then "\\t"
  else if c = Char.ofNat 8 then "\\b"
  else if c = Char.ofNat 12 then "\\f"
  else if c.toNat < 32 then "\\u00" ++ hexDigit (c.toNat / 16) ++ hexDigit (c.toNat % 16)
  else String.singleton c

/-- A `JSON.stringify` string literal: quoted and escaped. -/
def jsonStrLit (s : String) : String :=
  "\"" ++ String.join (s.toList.map escapeChar) ++ "\""

/- Serialization `JSON.stringify(v)` of a JSON value; object members keep
their insertion order. -/
mutual
/-- Serialization of one JSON value. -/
def jsonStringify (v : Json) : String :=
  match v with
  | .null => "null"
  | .bool b => cond b "true" "false"
  | .num q => ratToString q
  | .str s => jsonStrLit s
  | .arr xs => "[" ++ jsonArrMembers xs ++ "]"
  | .obj fs => "\x7b" ++ jsonObjMembers fs ++ "\x7d"
termination_by structural v

/-- Comma-joined serialized elements of a JSON array. -/
def jsonArrMembers (l : JsonArr) : String :=
  match l with
  | .nil => ""
  | .cons x .nil => jsonStringify x
  | .cons x (.cons y rest) => jsonStringify x ++ "," ++ jsonArrMembers (.cons y rest)
termination_by structural l

/-- Comma-joined serialized members of a JSON object. -/
def jsonObjMembers (o : JsonObj) : String :=
  match o with
  | .nil => ""
  | .cons k x .nil => jsonStrLit k ++ ":" ++ jsonStringify x
  | .cons k x (.cons k2 y rest) =>
    jsonStrLit k ++ ":" ++ jsonStringify x ++ "," ++ jsonObjMembers (.cons k2 y rest)
termination_by structural o
end

/-- Property access `v[k]` on an arbitrary JavaScript value: it throws a
`TypeError` when `v` is `null` (the error text is host-defined; we write an
approximation of the V8 wording), looks the key up when `v` is an object, and
yields `undefined` on the other primitives and arrays (none of the keys the
program reads is an array index or `length`). -/
def jsGetProp : Json → String → Except String (Option Json)
  | .null, k => .error ("Cannot read properties of null (reading " ++ k ++ ")")
  | .obj o, k => .ok (lookupField o.fields k)
  | _, _ => .ok none

/-- Non-throwing property access on a value already known not to be `null`
(used after an optional-chaining guard). -/
def jsProp : Json → String → Option Json
  | .obj o, k => lookupField o.fields k
  | _, _ => none

/-- Indexed access `v[i]` on a value already known not to be `null`: an array
yields its element, a string its one-character substring, an object the member
named by the numeral. -/
def jsIndex : Json → Nat → Option Json
  | .arr a, i => a.toList.get? i
  | .str s, i => (s.toList.get? i).map (fun c => .str (String.singleton c))
  | .obj o, i => lookupField o.fields (toString i)
  | _, _ => none

/-- Optional-chaining property step `v?.k`: `undefined` and `null` short-circuit
to `undefined`. -/
def optChainProp (v : Option Json) (k : String) : Option Json :=
  match v with
  | none => none
  | some .null => none
  | some j => jsProp j k

/-- Optional-chaining indexed step `v?.[i]`. -/
def optChainIndex (v : Option Json) (i : Nat) : Option Json :=
  match v with
  | none => none
  | some .null => none
  | some j => jsIndex j i

/-- The JavaScript pattern `x || ''`: a missing or falsy value becomes the
empty string. -/
def jsOrEmpty : Option Json → Json
  | none => .str ""
  | some v => if truthy v then v else .str ""

/-- Environment bindings of the deployment; the handlers read only the OpenAI
key. -/
structure Env where
  OPENAI_API_KEY : String

/-- The inbound request, reduced to the data the handlers consult: the HTTP
method and the outcome of `await request.json()` (`Except.error` carries the
thrown parse error's message). -/
structure Request where
  method : String
  body : Except String Json

/-- One chat message of the OpenAI payload. -/
structure ChatMessage where
  role : String
  content : String

/-- The JSON payload sent to the OpenAI chat-completions endpoint. -/
structure Payload where
  model : String
  messages : List ChatMessage
  temperature : ℚ
  max_tokens : ℕ

/-- The outbound upstream call: URL, method, headers, and the payload that is
`JSON.stringify`ed into the request body. -/
structure OutboundRequest where
  url : String
  method : String
  headers : List (String × String)
  body : Payload

/-- Behavior of one upstream `fetch`: either the promise rejects with an error
message, or a response arrives with its `ok` flag, the text `await res.text()`
would yield, and the outcome of `await res.json()`. -/
inductive UpstreamResult where
  | threw : String → UpstreamResult
  | response : Bool → String → Except String Json → UpstreamResult

/-- The HTTP response a handler returns; `body` is the value passed to
`JSON.stringify` when constructing it. -/
structure HttpResponse where
  status : ℕ
  headers : List (String × String)
  body : Json

/-- A handler run: the response produced and the outbound upstream calls made,
in order. -/
structure HandlerOutput where
  response : HttpResponse
  calls : List OutboundRequest

/-- The header list every response in the source carries. -/
def contentTypeJson : List (String × String) := [("Content-Type", "application/json")]

/-- The characters `String.prototype.trim` strips: ECMAScript WhiteSpace and
LineTerminator code points. -/
def jsWhitespace (c : Char) : Bool :=
  (c = ' ') || (c = '\t') || (c = '\n') || (c = '\r') ||
  (c.toNat = 11) || (c.toNat = 12) || (c.toNat = 160) || (c.toNat = 0x1680) ||
  (0x2000 ≤ c.toNat && c.toNat ≤ 0x200A) || (c.toNat = 0x2028) || (c.toNat = 0x2029) ||
  (c.toNat = 0x202F) || (c.toNat = 0x205F) || (c.toNat = 0x3000) || (c.toNat = 0xFEFF)

/-- JavaScript `s.trim()`: leading and trailing whitespace removed. -/
def jsTrim (s : String) : String :=
  ⟨((s.data.dropWhile jsWhitespace).reverse.dropWhile jsWhitespace).reverse⟩

/-- One iteration of the field loop: `body[key] && body[key].toString().trim()
!== ''` pushes `` `${mapping[key]}: ${body[key]}` ``; `none` when the field is
skipped. -/
def renderField (label : String) (v : Option Json) : Option String :=
  match v with
  | none => none
  | some j =>
    if truthy j && jsTrim (jsToString j) != "" then some (label ++ ": " ++ jsToString j)
    else none

/-- The field loop `for (const key of Object.keys(mapping)) ...` over the fixed
mapping: collects the rendered lines in mapping order; propagates the
`TypeError` thrown when the parsed body is `null`. -/
def collectLines : List (String × String) → Json → Except String (List String)
  | [], _ => .ok []
  | (key, label) :: rest, body => do
    let v ← jsGetProp body key
    let tail ← collectLines rest body
    match renderField label v with
    | some line => .ok (line :: tail)
    | none => .ok tail

/-- The extraction `result.choices?.[0]?.message?.content || ''`: plain access
of `choices` (throws when `result` is `null`), optional-chained steps, and the
falsy-to-empty-string default. -/
def extractContent (result : Json) : Except String Json := do
  let choices ← jsGetProp result "choices"
  let first := optChainIndex choices 0
  let message := optChainProp first "message"
  let content := optChainProp message "content"
  .ok (jsOrEmpty content)

namespace Worker

/-- The key-to-label mapping of `src/worker/index.js`, in the insertion order
`Object.keys` iterates it. -/
def mapping : List (String × String) :=
  [("name", "Name"),
   ("roast", "Roast profile"),
   ("origin", "Origin"),
   ("process", "Processing method"),
   ("varietal", "Varietal"),
   ("masl", "MASL"),
   ("roastDate", "Roast date"),
   ("brewProfile", "Brew profile")]

/-- The constant system prompt of `src/worker/index.js`, transcribed segment by
segment. -/
def systemPrompt : String :=
  "You are AidGen, a recipe generator for the Fellow Aiden coffee machine.\n" ++
  "Your task is to generate precise coffee brewing recipes based on user inputs.\n\n" ++
  "The user will provide some or all of the following fields: Name, Roast profile, Origin, Processing method, Varietal, MASL, Roast date, Brew profile.\n" ++
  "If any fields are blank, ignore them.\n\n" ++
  "Output as an HTML block containing ONLY tables. Each table must be dark mode styled and readable when injected directly into the page.\n\n" ++
  "Tables Required:\n" ++
  "1. Aiden Recipe Table (Temperature, Coffee-to-Water Ratio, Bloom Ratio, Bloom Time, Bloom Temperature).\n" ++
  "2. Single Serve Recipe Table (Pulse #, Pulse Temp, Time Until Next Pulse).\n" ++
  "3. Batch Recipe Table (Pulse #, Pulse Temp, Time Until Next Pulse).\n\n" ++
  "Rules:\n" ++
  "- All values must fall within specified ranges.\n" ++
  "- Be precise & realistic for the Fellow Aiden brewer.\n" ++
  "- Do not output text outside of tables."

/-- The outbound call `fetch('https://api.openai.com/v1/chat/completions', ...)`
the worker makes, with the payload it stringifies into the body. -/
def openaiRequest (env : Env) (userMessage : String) : OutboundRequest :=
  ⟨"https://api.openai.com/v1/chat/completions",
   "POST",
   [("Content-Type", "application/json"),
    ("Authorization", "Bearer " ++ env.OPENAI_API_KEY)],
   ⟨"gpt-3.5-turbo",
    [⟨"system", systemPrompt⟩, ⟨"user", userMessage⟩],
    1 / 2,
    800⟩⟩

/-- The worker's `fetch(request, env)` entry point of `src/worker/index.js`:
405 on non-POST, otherwise build the user message, call OpenAI through the
oracle `up`, and translate its outcome; every exception along the way is
caught into a 400 response. -/
def fetch (req : Request) (env : Env) (up : OutboundRequest → UpstreamResult) :
    HandlerOutput :=
  if req.method ≠ "POST" then
    ⟨⟨405, contentTypeJson, jobj [("error", .str "Method Not Allowed")]⟩, []⟩
  else
    match req.body with
    | .error e =>
      ⟨⟨400, contentTypeJson, jobj [("error", .str "Invalid request"), ("message", .str e)]⟩, []⟩
    | .ok body =>
      match collectLines mapping body with
      | .error e =>
        ⟨⟨400, contentTypeJson, jobj [("error", .str "Invalid request"), ("message", .str e)]⟩,
         []⟩
      | .ok lines =>
        let userMessage := String.intercalate "\n" lines
        let call := openaiRequest env userMessage
        match up call with
        | .threw e =>
          ⟨⟨400, contentTypeJson,
            jobj [("error", .str "Invalid request"), ("message", .str e)]⟩, [call]⟩
        | .response ok text jsonOutcome =>
          if !ok then
            ⟨⟨500, contentTypeJson,
              jobj [("error", .str "OpenAI API error"), ("details", .str text)]⟩, [call]⟩
          else
            match jsonOutcome with
            | .error e =>
              ⟨⟨400, contentTypeJson,
                jobj [("error", .str "Invalid request"), ("message", .str e)]⟩, [call]⟩
            | .ok result =>
              match extractContent result with
              | .error e =>
                ⟨⟨400, contentTypeJson,
                  jobj [("error", .str "Invalid request"), ("message", .str e)]⟩, [call]⟩
              | .ok content =>
                ⟨⟨200, contentTypeJson, jobj [("html", content)]⟩, [call]⟩

end Worker

namespace Pages

/-- The key-to-label mapping inside `handlePost` of `src/unnamed/part_000`. -/
def mapping : List (String × String) :=
  [("name", "Name"),
   ("roast", "Roast profile"),
   ("origin", "Origin"),
   ("process", "Processing method"),
   ("varietal", "Varietal"),
   ("masl", "MASL"),
   ("roastDate", "Roast date"),
   ("brewProfile", "Brew profile")]

/-- The constant system prompt inside `handlePost` of `src/unnamed/part_000`. -/
def systemPrompt : String :=
  "You are AidGen, a recipe generator for the Fellow Aiden coffee machine.\n" ++
  "Your task is to generate precise coffee brewing recipes based on user inputs.\n\n" ++
  "The user will provide some or all of the following fields: Name, Roast profile, Origin, Processing method, Varietal, MASL, Roast date, Brew profile.\n" ++
  "If any fields are blank, ignore them.\n\n" ++
  "Output as an HTML block containing ONLY tables. Each table must be dark mode styled and readable when injected directly into the page.\n\n" ++
  "Tables Required:\n" ++
  "1. Aiden Recipe Table (Temperature, Coffee-to-Water Ratio, Bloom Ratio, Bloom Time, Bloom Temperature).\n" ++
  "2. Single Serve Recipe Table (Pulse #, Pulse Temp, Time Until Next Pulse).\n" ++
  "3. Batch Recipe Table (Pulse #, Pulse Temp, Time Until Next Pulse).\n\n" ++
  "Rules:\n" ++
  "- All values must fall within specified ranges.\n" ++
  "- Be precise & realistic for the Fellow Aiden brewer.\n" ++
  "- Do not output text outside of tables."

/-- The outbound OpenAI call `handlePost` makes. -/
def openaiRequest (env : Env) (userMessage : String) : OutboundRequest :=
  ⟨"https://api.openai.com/v1/chat/completions",
   "POST",
   [("Content-Type", "application/json"),
    ("Authorization", "Bearer " ++ env.OPENAI_API_KEY)],
   ⟨"gpt-3.5-turbo",
    [⟨"system", systemPrompt⟩, ⟨"user", userMessage⟩],
    1 / 2,
    800⟩⟩

/-- The Pages Function helper `handlePost(context)` of `src/unnamed/part_000`
(lines 10-83): same pipeline as the worker, without a method check. -/
def handlePost (req : Request) (env : Env) (up : OutboundRequest → UpstreamResult) :
    HandlerOutput :=
  match req.body with
  | .error e =>
    ⟨⟨400, contentTypeJson, jobj [("error", .str "Invalid request"), ("message", .str e)]⟩, []⟩
  | .ok body =>
    match collectLines mapping body with
    | .error e =>
      ⟨⟨400, contentTypeJson, jobj [("error", .str "Invalid request"), ("message", .str e)]⟩,
       []⟩
    | .ok lines =>
      let userMessage := String.intercalate "\n" lines
      let call := openaiRequest env userMessage
      match up call with
      | .threw e =>
        ⟨⟨400, contentTypeJson,
          jobj [("error", .str "Invalid request"), ("message", .str e)]⟩, [call]⟩
      | .response ok text jsonOutcome =>
        if !ok then
          ⟨⟨500, contentTypeJson,
            jobj [("error", .str "OpenAI API error"), ("details", .str text)]⟩, [call]⟩
        else
          match jsonOutcome with
          | .error e =>
            ⟨⟨400, contentTypeJson,
              jobj [("error", .str "Invalid request"), ("message", .str e)]⟩, [call]⟩
          | .ok result =>
            match extractContent result with
            | .error e =>
              ⟨⟨400, contentTypeJson,
                jobj [("error", .str "Invalid request"), ("message", .str e)]⟩, [call]⟩
            | .ok content =>
              ⟨⟨200, contentTypeJson, jobj [("html", content)]⟩, [call]⟩

/-- The generic Pages Function dispatcher `onRequest(context)` of
`src/unnamed/part_000` (lines 86-94): delegates POST to `handlePost`, anything
else gets 405. -/
def onRequest (req : Request) (env : Env) (up : OutboundRequest → UpstreamResult) :
    HandlerOutput :=
  if req.method = "POST" then handlePost req env up
  else ⟨⟨405, contentTypeJson, jobj [("error", .str "Method Not Allowed")]⟩, []⟩

/-- The key-to-label mapping inside `onRequestPost` of `src/unnamed/part_000`
(a verbatim duplicate of the one in `handlePost`). -/
def postMapping : List (String × String) :=
  [("name", "Name"),
   ("roast", "Roast profile"),
   ("origin", "Origin"),
   ("process", "Processing method"),
   ("varietal", "Varietal"),
   ("masl", "MASL"),
   ("roastDate", "Roast date"),
   ("brewProfile", "Brew profile")]

/-- The constant system prompt inside `onRequestPost` of `src/unnamed/part_000`
(a verbatim duplicate of the one in `handlePost`). -/
def postSystemPrompt : String :=
  "You are AidGen, a recipe generator for the Fellow Aiden coffee machine.\n" ++
  "Your task is to generate precise coffee brewing recipes based on user inputs.\n\n" ++
  "The user will provide some or all of the following fields: Name, Roast profile, Origin, Processing method, Varietal, MASL, Roast date, Brew profile.\n" ++
  "If any fields are blank, ignore them.\n\n" ++
  "Output as an HTML block containing ONLY tables. Each table must be dark mode styled and readable when injected directly into the page.\n\n" ++
  "Tables Required:\n" ++
  "1. Aiden Recipe Table (Temperature, Coffee-to-Water Ratio, Bloom Ratio, Bloom Time, Bloom Temperature).\n" ++
  "2. Single Serve Recipe Table (Pulse #, Pulse Temp, Time Until Next Pulse).\n" ++
  "3. Batch Recipe Table (Pulse #, Pulse Temp, Time Until Next Pulse).\n\n" ++
  "Rules:\n" ++
  "- All values must fall within specified ranges.\n" ++
  "- Be precise & realistic for the Fellow Aiden brewer.\n" ++
  "- Do not output text outside of tables."

/-- The outbound OpenAI call `onRequestPost` makes. -/
def postOpenaiRequest (env : Env) (userMessage : String) : OutboundRequest :=
  ⟨"https://api.openai.com/v1/chat/completions",
   "POST",
   [("Content-Type", "application/json"),
    ("Authorization", "Bearer " ++ env.OPENAI_API_KEY)],
   ⟨"gpt-3.5-turbo",
    [⟨"system", postSystemPrompt⟩, ⟨"user", userMessage⟩],
    1 / 2,
    800⟩⟩

/-- The method-specific Pages Function `onRequestPost(context)` of
`src/unnamed/part_000` (lines 105-176), a verbatim duplicate of `handlePost`;
the hosting convention invokes it for POST requests only. -/
def onRequestPost (req : Request) (env : Env) (up : OutboundRequest → UpstreamResult) :
    HandlerOutput :=
  match req.body with
  | .error e =>
    ⟨⟨400, contentTypeJson, jobj [("error", .str "Invalid request"), ("message", .str e)]⟩, []⟩
  | .ok body =>
    match collectLines postMapping body with
    | .error e =>
      ⟨⟨400, contentTypeJson, jobj [("error", .str "Invalid request"), ("message", .str e)]⟩,
       []⟩
    | .ok lines =>
      let userMessage := String.intercalate "\n" lines
      let call := postOpenaiRequest env userMessage
      match up call with
      | .threw e =>
        ⟨⟨400, contentTypeJson,
          jobj [("error", .str "Invalid request"), ("message", .str e)]⟩, [call]⟩
      | .response ok text jsonOutcome =>
        if !ok then
          ⟨⟨500, contentTypeJson,
            jobj [("error", .str "OpenAI API error"), ("details", .str text)]⟩, [call]⟩
        else
          match jsonOutcome with
          | .error e =>
            ⟨⟨400, contentTypeJson,
              jobj [("error", .str "Invalid request"), ("message", .str e)]⟩, [call]⟩
          | .ok result =>
            match extractContent result with
            | .error e =>
              ⟨⟨400, contentTypeJson,
                jobj [("error", .str "Invalid request"), ("message", .str e)]⟩, [call]⟩
            | .ok content =>
              ⟨⟨200, contentTypeJson, jobj [("html", content)]⟩, [call]⟩

end Pages

/-- Modelled from the spec's words for the refinement comparison of C7: the
extraction path read strictly — the first element of the body's `choices`
sequence, then that element's `message.content` member; `none` when any part
of the path is missing. -/
def specExtract (result : Json) : Option Json :=
  match result with
  | .obj fs =>
    match lookupField fs.fields "choices" with
    | some (.arr xs) =>
      match xs.toList.get? 0 with
      | some (.obj gs) =>
        match lookupField gs.fields "message" with
        | some (.obj hs) => lookupField hs.fields "content"
        | _ => none
      | _ => none
    | _ => none
  | _ => none

/-- A field value that is absent, null, or a whitespace-only string — the
exclusion criterion as the spec words it. -/
def blankField : Option Json → Bool
  | none => true
  | some .null => true
  | some (.str s) => jsTrim s == ""
  | some _ => false

theorem JsonObj.fields_ofList (fs : List (String × Json)) : (JsonObj.ofList fs).fields = fs := by
  induction fs with
  | nil => rfl
  | cons p rest ih => cases p; simp [JsonObj.ofList, JsonObj.fields, ih]

theorem JsonArr.toList_ofList (xs : List Json) : (JsonArr.ofList xs).toList = xs := by
  induction xs with
  | nil => rfl
  | cons x rest ih => simp [JsonArr.ofList, JsonArr.toList, ih]

/-- On key-unique member lists, lookup is invariant under permutation. -/
theorem lookupField_perm {fs fs' : List (String × Json)} (h : fs.Perm fs')
    (nd : (fs.map Prod.fst).Nodup) (k : String) : lookupField fs k = lookupField fs' k := by
  unfold lookupField
  cases hfind : fs.find? (fun p => p.1 == k) with
  | none =>
    have hnone : fs'.find? (fun p => p.1 == k) = none := by
      rw [List.find?_eq_none] at hfind ⊢
      exact fun x hx => hfind x (h.mem_iff.mpr hx)
    rw [hnone]
  | some x =>
    have hpx := List.find?_some hfind
    have hxmem : x ∈ fs := List.mem_of_find?_eq_some hfind
    cases hfind' : fs'.find? (fun p => p.1 == k) with
    | none =>
      rw [List.find?_eq_none] at hfind'
      exact absurd hpx (hfind' x (h.mem_iff.mp hxmem))
    | some y =>
      have hpy := List.find?_some hfind'
      have hymem : y ∈ fs := h.mem_iff.mpr (List.mem_of_find?_eq_some hfind')
      have hkey : x.1 = y.1 := by
        have h1 : x.1 = k := by simpa using hpx
        have h2 : y.1 = k := by simpa using hpy
        rw [h1, h2]
      have : x = y := List.inj_on_of_nodup_map nd hxmem hymem hkey
      rw [this]

/-- Reading a property of an object literal is plain lookup. -/
theorem jsGetProp_jobj (fs : List (String × Json)) (k : String) :
    jsGetProp (jobj fs) k = .ok (lookupField fs k) := by
  simp [jobj, jsGetProp, JsonObj.fields_ofList]

/-- Evaluating the field loop on a parsed object: it renders, in mapping
order, exactly the fields the filter keeps. -/
theorem collectLines_obj (m : List (String × String)) (fs : List (String × Json)) :
    collectLines m (jobj fs) =
      .ok (m.filterMap (fun kl => renderField kl.2 (lookupField fs kl.1))) := by
  induction m with
  | nil => rfl
  | cons kl rest ih =>
    cases kl with
    | mk key label =>
      simp only [collectLines, jsGetProp_jobj, ih, List.filterMap_cons, Except.bind, bind]
      cases renderField label (lookupField fs key) <;> rfl

/-- Whatever the upstream oracle answers, a POST whose body parses and whose
field loop succeeds makes exactly one outbound call, carrying the joined user
message. -/
theorem fetch_calls_of_ok (env : Env) (up : OutboundRequest → UpstreamResult) (body : Json)
    (lines : List String) (hc : collectLines Worker.mapping body = .ok lines) :
    (Worker.fetch ⟨"POST", .ok body⟩ env up).calls =
      [Worker.openaiRequest env (String.intercalate "\n" lines)] := by
  unfold Worker.fetch
  simp only [hc]
  cases hup : up (Worker.openaiRequest env (String.intercalate "\n" lines)) with
  | threw e => simp [hup]
  | response ok text jsonOutcome =>
    cases ok with
    | false => simp [hup]
    | true =>
      cases jsonOutcome with
      | error e => simp [hup]
      | ok result =>
        cases hext : extractContent result with
        | error e => simp [hup, hext]
        | ok content => simp [hup, hext]

/-- C1: for every JSON object body, the user message carried by the outbound
call is the newline-join of the lines rendered for exactly the recognized keys
passing the presence filter, taken in the fixed mapping order (name, roast,
origin, process, varietal, masl, roastDate, brewProfile) with the fixed labels,
independent of the order the keys appear in the body object; and on the body
with name "El Salvador Bourbon" and roast "Light" the user message is exactly
the two expected lines. -/
theorem userMessage_fixed_order :
    (∀ (fs : List (String × Json)) (env : Env) (up : OutboundRequest → UpstreamResult),
        (Worker.fetch ⟨"POST", .ok (jobj fs)⟩ env up).calls =
          [Worker.openaiRequest env (String.intercalate "\n"
            (Worker.mapping.filterMap (fun kl => renderField kl.2 (lookupField fs kl.1))))])
    ∧ (∀ fs fs' : List (String × Json), fs.Perm fs' → (fs.map Prod.fst).Nodup →
        collectLines Worker.mapping (jobj fs) = collectLines Worker.mapping (jobj fs'))
    ∧ (collectLines Worker.mapping
          (jobj [("name", .str "El Salvador Bourbon"), ("roast", .str "Light")])).map
        (String.intercalate "\n") = .ok "Name: El Salvador Bourbon\nRoast profile: Light" := by
  refine ⟨?_, ?_, rfl⟩
  · intro fs env up
    exact fetch_calls_of_ok env up _ _ (collectLines_obj _ fs)
  · intro fs fs' hperm hnd
    rw [collectLines_obj, collectLines_obj]
    have hfun : (fun kl : String × String => renderField kl.2 (lookupField fs kl.1)) =
        (fun kl : String × String => renderField kl.2 (lookupField fs' kl.1)) :=
      funext fun kl => by rw [lookupField_perm hperm hnd]
    rw [hfun]

/-- Witness for C1 at a concrete permuted body. -/
theorem userMessage_fixed_order_witness :
    (Worker.fetch
        ⟨"POST", .ok (jobj [("roast", .str "Light"), ("name", .str "El Salvador Bourbon")])⟩
        ⟨"k"⟩ (fun _ => .threw "net")).calls =
      [Worker.openaiRequest ⟨"k"⟩ "Name: El Salvador Bourbon\nRoast profile: Light"]
    ∧ collectLines Worker.mapping
        (jobj [("roast", .str "Light"), ("name", .str "El Salvador Bourbon")]) =
      collectLines Worker.mapping
        (jobj [("name", .str "El Salvador Bourbon"), ("roast", .str "Light")]) := by
  constructor
  · exact (userMessage_fixed_order.1
      [("roast", .str "Light"), ("name", .str "El Salvador Bourbon")] ⟨"k"⟩
      (fun _ => .threw "net")).trans rfl
  · exact userMessage_fixed_order.2.1 _ _
      (List.Perm.swap (("name", Json.str "El Salvador Bourbon") : String × Json)
        (("roast", Json.str "Light") : String × Json) [])
      (by decide)

/-- C2 counterexample: in the body with masl equal to the number 0 the value is
present, not null, and not whitespace-only after string conversion and
trimming, yet the loop drops it (the number 0 is JavaScript-falsy), so the
MASL line is omitted and the user message is empty — against the claimed
exclusion criterion. -/
theorem blank_filter_counterexample :
    lookupField [("masl", Json.num 0)] "masl" = some (.num 0)
    ∧ Json.num 0 ≠ Json.null
    ∧ jsTrim (jsToString (Json.num 0)) ≠ ""
    ∧ renderField "MASL" (some (.num 0)) = none
    ∧ (collectLines Worker.mapping (jobj [("masl", Json.num 0)])).map
        (String.intercalate "\n") = .ok "" :=
  ⟨rfl, fun h => Json.noConfusion h, by decide, rfl, rfl⟩

/-- C2 (amended): a recognized key's value is excluded from the prompt iff it
is absent, JavaScript-falsy (null, false, the number 0, the empty string), or
whitespace-only after string conversion and trimming; every other value is
rendered. In particular the whitespace-only name is omitted entirely. -/
theorem field_excluded_iff :
    (∀ (label : String) (v : Option Json),
        renderField label v = none ↔
          v = none ∨
          (∃ j, v = some j ∧ truthy j = false) ∨
          (∃ j, v = some j ∧ jsTrim (jsToString j) = ""))
    ∧ (collectLines Worker.mapping (jobj [("name", Json.str "  ")])).map
        (String.intercalate "\n") = .ok "" := by
  refine ⟨?_, rfl⟩
  intro label v
  cases v with
  | none => simp [renderField]
  | some j =>
    by_cases h1 : truthy j
    · by_cases h2 : jsTrim (jsToString j) = ""
      · simp [renderField, h1, h2]
      · simp [renderField, h1, h2]
    · simp [renderField, h1]

/-- Witness for C2 (amended) at the number 0. -/
theorem field_excluded_iff_witness : renderField "MASL" (some (Json.num 0)) = none :=
  (field_excluded_iff.1 "MASL" (some (Json.num 0))).mpr
    (Or.inr (Or.inl ⟨Json.num 0, rfl, rfl⟩))

/-- C3: the worker's generic fetch dispatcher and the Pages handlers implement
identical behavior — for every request, environment and upstream behavior the
generic `onRequest` dispatcher produces the very same output (status, headers,
body and outbound calls) as the worker's `fetch`, and the method-specific
`onRequestPost` does so on the POST requests the hosting convention routes to
it. -/
theorem entry_points_agree :
    ∀ (req : Request) (env : Env) (up : OutboundRequest → UpstreamResult),
      Pages.onRequest req env up = Worker.fetch req env up
      ∧ (req.method = "POST" → Pages.onRequestPost req env up = Worker.fetch req env up) := by
  intro req env up
  constructor
  · by_cases h : req.method = "POST"
    · rw [Pages.onRequest, if_pos h, Worker.fetch, if_neg (by simp [h])]
      rfl
    · rw [Pages.onRequest, if_neg h, Worker.fetch, if_pos h]
  · intro h
    rw [Worker.fetch, if_neg (by simp [h])]
    rfl

/-- Witness for C3 at a concrete POST request. -/
theorem entry_points_agree_witness :
    Pages.onRequest ⟨"POST", .ok (jobj [])⟩ ⟨"k"⟩ (fun _ => .threw "net") =
      Worker.fetch ⟨"POST", .ok (jobj [])⟩ ⟨"k"⟩ (fun _ => .threw "net")
    ∧ Pages.onRequestPost ⟨"POST", .ok (jobj [])⟩ ⟨"k"⟩ (fun _ => .threw "net") =
      Worker.fetch ⟨"POST", .ok (jobj [])⟩ ⟨"k"⟩ (fun _ => .threw "net") :=
  ⟨(entry_points_agree _ _ _).1, (entry_points_agree _ _ _).2 rfl⟩

/-- C4: every request whose method is not POST is answered with status 405 and
body with error "Method Not Allowed" (serialized exactly as claimed), and no
outbound upstream call is made — by the worker entry point and by the Pages
dispatcher alike. -/
theorem non_post_rejected (req : Request) (env : Env) (up : OutboundRequest → UpstreamResult)
    (h : req.method ≠ "POST") :
    Worker.fetch req env up =
      ⟨⟨405, contentTypeJson, jobj [("error", .str "Method Not Allowed")]⟩, []⟩
    ∧ Pages.onRequest req env up =
      ⟨⟨405, contentTypeJson, jobj [("error", .str "Method Not Allowed")]⟩, []⟩
    ∧ jsonStringify (jobj [("error", .str "Method Not Allowed")]) =
      "\x7b\"error\":\"Method Not Allowed\"\x7d" := by
  refine ⟨?_, ?_, rfl⟩
  · rw [Worker.fetch, if_pos h]
  · rw [Pages.onRequest, if_neg h]

/-- Witness for C4 at a GET request. -/
theorem non_post_rejected_witness :
    Worker.fetch ⟨"GET", .ok Json.null⟩ ⟨"k"⟩ (fun _ => .threw "x") =
      ⟨⟨405, contentTypeJson, jobj [("error", .str "Method Not Allowed")]⟩, []⟩
    ∧ Pages.onRequest ⟨"GET", .ok Json.null⟩ ⟨"k"⟩ (fun _ => .threw "x") =
      ⟨⟨405, contentTypeJson, jobj [("error", .str "Method Not Allowed")]⟩, []⟩ :=
  ⟨(non_post_rejected ⟨"GET", .ok Json.null⟩ ⟨"k"⟩ (fun _ => .threw "x") (by decide)).1,
   (non_post_rejected ⟨"GET", .ok Json.null⟩ ⟨"k"⟩ (fun _ => .threw "x") (by decide)).2.1⟩

/-- C5: a failed body parse — and likewise any exception thrown later in the
try block, such as a rejected upstream fetch — is caught and turned into a 400
response whose body is the error "Invalid request" with the exception text as
message (non-empty whenever the exception text is); after a parse failure no
outbound call is made, so the handler returns immediately. -/
theorem invalid_request_caught (env : Env) (up : OutboundRequest → UpstreamResult)
    (m : String) (body : Json) (lines : List String) (m2 : String)
    (hm : m ≠ "")
    (hc : collectLines Worker.mapping body = .ok lines)
    (hup : up (Worker.openaiRequest env (String.intercalate "\n" lines)) = .threw m2) :
    Worker.fetch ⟨"POST", .error m⟩ env up =
      ⟨⟨400, contentTypeJson, jobj [("error", .str "Invalid request"), ("message", .str m)]⟩, []⟩
    ∧ Pages.handlePost ⟨"POST", .error m⟩ env up =
      ⟨⟨400, contentTypeJson, jobj [("error", .str "Invalid request"), ("message", .str m)]⟩, []⟩
    ∧ Json.str m ≠ Json.str ""
    ∧ Worker.fetch ⟨"POST", .ok body⟩ env up =
      ⟨⟨400, contentTypeJson, jobj [("error", .str "Invalid request"), ("message", .str m2)]⟩,
       [Worker.openaiRequest env (String.intercalate "\n" lines)]⟩ := by
  refine ⟨?_, ?_, fun hh => hm (Json.str.inj hh), ?_⟩
  · rw [Worker.fetch, if_neg (by simp)]
  · rw [Pages.handlePost]
  · rw [Worker.fetch, if_neg (by simp)]
    simp only [hc, hup]

/-- Witness for C5 at a concrete parse failure and a concrete rejected
upstream fetch. -/
theorem invalid_request_caught_witness :
    Worker.fetch ⟨"POST", .error "Unexpected end of JSON input"⟩ ⟨"k"⟩ (fun _ => .threw "boom") =
      ⟨⟨400, contentTypeJson, jobj [("error", .str "Invalid request"),
        ("message", .str "Unexpected end of JSON input")]⟩, []⟩
    ∧ Worker.fetch ⟨"POST", .ok (jobj [])⟩ ⟨"k"⟩ (fun _ => .threw "boom") =
      ⟨⟨400, contentTypeJson, jobj [("error", .str "Invalid request"), ("message", .str "boom")]⟩,
       [Worker.openaiRequest ⟨"k"⟩ ""]⟩ := by
  have h := invalid_request_caught ⟨"k"⟩ (fun _ => .threw "boom") "Unexpected end of JSON input"
    (jobj []) [] "boom" (by decide) rfl rfl
  exact ⟨h.1, h.2.2.2.trans rfl⟩

/-- C6: when the upstream call answers with a non-success status, the handler
returns status 500 with body error "OpenAI API error" and the raw upstream
body text as details; an upstream failure whose body reads "rate limited"
serializes exactly as claimed. -/
theorem upstream_error_500 (env : Env) (up : OutboundRequest → UpstreamResult)
    (body : Json) (lines : List String) (text : String) (jsonOutcome : Except String Json)
    (hc : collectLines Worker.mapping body = .ok lines)
    (hup : up (Worker.openaiRequest env (String.intercalate "\n" lines)) =
      .response false text jsonOutcome) :
    Worker.fetch ⟨"POST", .ok body⟩ env up =
      ⟨⟨500, contentTypeJson, jobj [("error", .str "OpenAI API error"), ("details", .str text)]⟩,
       [Worker.openaiRequest env (String.intercalate "\n" lines)]⟩
    ∧ (Worker.fetch ⟨"POST", .ok (jobj [])⟩ env
          (fun _ => .response false "rate limited" (.error "Unexpected token"))).response.status
        = 500
    ∧ jsonStringify ((Worker.fetch ⟨"POST", .ok (jobj [])⟩ env
          (fun _ => .response false "rate limited" (.error "Unexpected token"))).response.body) =
      "\x7b\"error\":\"OpenAI API error\",\"details\":\"rate limited\"\x7d" := by
  refine ⟨?_, rfl, rfl⟩
  rw [Worker.fetch, if_neg (by simp)]
  simp only [hc, hup]
  rfl

/-- Witness for C6 at a concrete rate-limited upstream. -/
theorem upstream_error_500_witness :
    Worker.fetch ⟨"POST", .ok (jobj [])⟩ ⟨"k"⟩
        (fun _ => .response false "rate limited" (.error "Unexpected token")) =
      ⟨⟨500, contentTypeJson,
        jobj [("error", .str "OpenAI API error"), ("details", .str "rate limited")]⟩,
       [Worker.openaiRequest ⟨"k"⟩ ""]⟩ :=
  ((upstream_error_500 ⟨"k"⟩ (fun _ => .response false "rate limited" (.error "Unexpected token"))
      (jobj []) [] "rate limited" (.error "Unexpected token") rfl rfl).1).trans rfl

/-- On results that are not null and whose `choices` member is not itself an
object, the code's optional-chain extraction agrees with the strict path of
the spec, up to the falsy-to-empty default. -/
theorem extract_eq_spec (result : Json) (hnull : result ≠ .null)
    (hchoices : ∀ gs, jsProp result "choices" ≠ some (.obj gs)) :
    extractContent result = .ok (jsOrEmpty (specExtract result)) := by
  cases result with
  | null => exact absurd rfl hnull
  | bool b => rfl
  | num q => rfl
  | str s => rfl
  | arr a => rfl
  | obj fs =>
    simp only [extractContent, jsGetProp, specExtract, bind, Except.bind]
    cases hc : lookupField fs.fields "choices" with
    | none => rfl
    | some v =>
      cases v with
      | null => rfl
      | bool b => rfl
      | num q => rfl
      | str s2 =>
        simp only [optChainIndex, jsIndex]
        cases hg : s2.toList.get? 0 with
        | none => rfl
        | some c => rfl
      | arr xs =>
        cases xs with
        | nil => rfl
        | cons e rest =>
          cases e with
          | null => rfl
          | bool b => rfl
          | num q => rfl
          | str s3 => rfl
          | arr a2 => rfl
          | obj gs =>
            simp only [optChainIndex, jsIndex, JsonArr.toList, List.get?, optChainProp, jsProp]
            cases hm : lookupField gs.fields "message" with
            | none => rfl
            | some mv =>
              cases mv with
              | null => rfl
              | bool b => rfl
              | num q => rfl
              | str s4 => rfl
              | arr a3 => rfl
              | obj hs => rfl
      | obj gs =>
        exact absurd (show jsProp (.obj fs) "choices" = some (.obj gs) by simp [jsProp, hc])
          (hchoices gs)

/-- C7 counterexample: a successful upstream response whose parsed JSON has the
full path choices[0].message.content present, with value the number 0, yields
a 200 response with html equal to the empty string — not the path's value —
because the code's fallback also replaces present-but-falsy values. -/
theorem content_fallback_counterexample :
    specExtract (jobj [("choices",
        jarr [jobj [("message", jobj [("content", Json.num 0)])]])]) = some (Json.num 0)
    ∧ Worker.fetch ⟨"POST", .ok (jobj [])⟩ ⟨"k"⟩
        (fun _ => .response true "ok" (.ok (jobj [("choices",
          jarr [jobj [("message", jobj [("content", Json.num 0)])]])]))) =
      ⟨⟨200, contentTypeJson, jobj [("html", Json.str "")]⟩, [Worker.openaiRequest ⟨"k"⟩ ""]⟩
    ∧ Json.str "" ≠ Json.num 0 :=
  ⟨rfl, rfl, fun h => Json.noConfusion h⟩

/-- C7 (amended): on a successful upstream response whose parsed JSON is not
null and whose `choices` member, when present, is not an object, the handler
returns 200 with html equal to the value at choices[0].message.content, with
the empty string substituted when any part of that path is missing or the
extracted value is falsy (null, false, 0, the empty string); a success body
lacking a choices member serializes exactly as the claimed literal. -/
theorem success_html_content (env : Env) (up : OutboundRequest → UpstreamResult)
    (body : Json) (lines : List String) (text : String) (result : Json)
    (hc : collectLines Worker.mapping body = .ok lines)
    (hup : up (Worker.openaiRequest env (String.intercalate "\n" lines)) =
      .response true text (.ok result))
    (hnull : result ≠ .null)
    (hchoices : ∀ gs, jsProp result "choices" ≠ some (.obj gs)) :
    Worker.fetch ⟨"POST", .ok body⟩ env up =
      ⟨⟨200, contentTypeJson, jobj [("html", jsOrEmpty (specExtract result))]⟩,
       [Worker.openaiRequest env (String.intercalate "\n" lines)]⟩
    ∧ (specExtract result = none → jsOrEmpty (specExtract result) = Json.str "")
    ∧ jsonStringify ((Worker.fetch ⟨"POST", .ok (jobj [])⟩ env
          (fun _ => .response true "ok" (.ok (jobj [])))).response.body) = "\x7b\"html\":\"\"\x7d"
    ∧ (Worker.fetch ⟨"POST", .ok (jobj [])⟩ env
          (fun _ => .response true "ok" (.ok (jobj [])))).response.status = 200 := by
  refine ⟨?_, fun h => by rw [h]; rfl, rfl, rfl⟩
  rw [Worker.fetch, if_neg (by simp)]
  simp only [hc, hup]
  rw [extract_eq_spec result hnull hchoices]
  rfl

/-- Witness for C7 (amended) at a concrete upstream success. -/
theorem success_html_content_witness :
    Worker.fetch ⟨"POST", .ok (jobj [])⟩ ⟨"k"⟩
        (fun _ => .response true "ok" (.ok (jobj [("choices",
          jarr [jobj [("message", jobj [("content", Json.str "<p>hi</p>")])]])]))) =
      ⟨⟨200, contentTypeJson, jobj [("html", Json.str "<p>hi</p>")]⟩,
       [Worker.openaiRequest ⟨"k"⟩ ""]⟩ := by
  have h := success_html_content ⟨"k"⟩
    (fun _ => .response true "ok" (.ok (jobj [("choices",
      jarr [jobj [("message", jobj [("content", Json.str "<p>hi</p>")])]])])))
    (jobj []) [] "ok"
    (jobj [("choices", jarr [jobj [("message", jobj [("content", Json.str "<p>hi</p>")])]])])
    rfl rfl (fun hcontra => Json.noConfusion hcontra)
    (fun gs hcontra => Json.noConfusion (Option.some.inj hcontra))
  exact h.1.trans rfl

/-- A field that is absent, null, or whitespace-only is dropped by the loop. -/
theorem renderField_of_blank (label : String) (v : Option Json)
    (h : blankField v = true) : renderField label v = none := by
  cases v with
  | none => rfl
  | some j =>
    cases j with
    | null => rfl
    | str s =>
      have hs : jsTrim s = "" := by simpa [blankField] using h
      by_cases he : s = ""
      · subst he; rfl
      · simp [renderField, truthy, he, jsToString, hs]
    | bool b => simp [blankField] at h
    | num q => simp [blankField] at h
    | arr a => simp [blankField] at h
    | obj o => simp [blankField] at h

/-- C8: when every recognized field of the body object is absent, null, or
whitespace-only, the constructed user message is the empty string, and the
handler still makes exactly one outbound call carrying that empty user
message. -/
theorem empty_body_still_calls (fs : List (String × Json)) (env : Env)
    (up : OutboundRequest → UpstreamResult)
    (h : ∀ k ∈ Worker.mapping.map Prod.fst, blankField (lookupField fs k) = true) :
    collectLines Worker.mapping (jobj fs) = .ok []
    ∧ (Worker.fetch ⟨"POST", .ok (jobj fs)⟩ env up).calls = [Worker.openaiRequest env ""] := by
  have hcol : collectLines Worker.mapping (jobj fs) = .ok [] := by
    rw [collectLines_obj]
    congr 1
    refine List.filterMap_eq_nil_iff.mpr ?_
    intro kl hkl
    exact renderField_of_blank kl.2 _ (h kl.1 (List.mem_map_of_mem Prod.fst hkl))
  exact ⟨hcol, (fetch_calls_of_ok env up (jobj fs) [] hcol).trans rfl⟩

/-- Witness for C8 at a body with a null field and a whitespace-only field. -/
theorem empty_body_still_calls_witness :
    collectLines Worker.mapping (jobj [("name", Json.null), ("roast", Json.str "  ")]) = .ok []
    ∧ (Worker.fetch ⟨"POST", .ok (jobj [("name", Json.null), ("roast", Json.str "  ")])⟩ ⟨"k"⟩
        (fun _ => .threw "x")).calls = [Worker.openaiRequest ⟨"k"⟩ ""] :=
  empty_body_still_calls [("name", Json.null), ("roast", Json.str "  ")] ⟨"k"⟩
    (fun _ => .threw "x") (by decide)

/-- C9: every outbound call a POST issues carries exactly the payload with the
fixed model identifier, the system message (the one constant prompt) followed
by the user message, temperature one half, and 800 maximum tokens. -/
theorem outbound_payload_fixed (env : Env) (up : OutboundRequest → UpstreamResult)
    (body : Json) (lines : List String)
    (hc : collectLines Worker.mapping body = .ok lines) :
    (Worker.fetch ⟨"POST", .ok body⟩ env up).calls.map (fun c => c.body) =
      [⟨"gpt-3.5-turbo",
        [⟨"system", Worker.systemPrompt⟩, ⟨"user", String.intercalate "\n" lines⟩],
        1 / 2, 800⟩] := by
  rw [fetch_calls_of_ok env up body lines hc]
  rfl

/-- Witness for C9 at a one-field body. -/
theorem outbound_payload_fixed_witness :
    (Worker.fetch ⟨"POST", .ok (jobj [("name", Json.str "A")])⟩ ⟨"k"⟩
        (fun _ => .threw "x")).calls.map (fun c => c.body) =
      [⟨"gpt-3.5-turbo", [⟨"system", Worker.systemPrompt⟩, ⟨"user", "Name: A"⟩], 1 / 2, 800⟩] :=
  (outbound_payload_fixed ⟨"k"⟩ (fun _ => .threw "x") (jobj [("name", Json.str "A")])
    ["Name: A"] rfl).trans rfl

/-- Every response of the worker entry point has exactly the JSON content-type
header. -/
theorem worker_headers (req : Request) (env : Env) (up : OutboundRequest → UpstreamResult) :
    (Worker.fetch req env up).response.headers = contentTypeJson := by
  rw [Worker.fetch]
  dsimp only
  repeat' split
  all_goals rfl

/-- Every response of the Pages `handlePost` helper has exactly the JSON
content-type header. -/
theorem handlePost_headers (req : Request) (env : Env) (up : OutboundRequest → UpstreamResult) :
    (Pages.handlePost req env up).response.headers = contentTypeJson := by
  rw [Pages.handlePost]
  dsimp only
  repeat' split
  all_goals rfl

/-- Every response of the Pages `onRequestPost` entry point has exactly the
JSON content-type header. -/
theorem onRequestPost_headers (req : Request) (env : Env)
    (up : OutboundRequest → UpstreamResult) :
    (Pages.onRequestPost req env up).response.headers = contentTypeJson := by
  rw [Pages.onRequestPost]
  dsimp only
  repeat' split
  all_goals rfl

/-- C10: every response produced by any entry point — the 405 rejection, the
400 invalid-request response, the 500 upstream-error response and the 200
success response — carries the header Content-Type: application/json. -/
theorem responses_content_type :
    ∀ (req : Request) (env : Env) (up : OutboundRequest → UpstreamResult),
      (Worker.fetch req env up).response.headers = [("Content-Type", "application/json")]
      ∧ (Pages.onRequest req env up).response.headers = [("Content-Type", "application/json")]
      ∧ (Pages.onRequestPost req env up).response.headers =
        [("Content-Type", "application/json")] := by
  intro req env up
  refine ⟨worker_headers req env up, ?_, onRequestPost_headers req env up⟩
  rw [Pages.onRequest]
  split
  · exact handlePost_headers req env up
  · rfl
